import Mathlib

/-!
Verification development for the WhisperX Gradio transcription app
(single source file `app.py`).

The development shallowly embeds the core of `app.py`:
the timestamp formatter `format_timestamp`, the model cache
`WhisperXManager.get_asr_model`, and the pipeline orchestrator plus
document exporter inside `transcribe_audio`.  Real numbers of the source
(seconds, wall-clock time) are embedded as rationals; Python's unbounded
integers as `Int`/`Nat`; Python exceptions as `Except String`; the
external inference capabilities (whisperx model loader, transcription,
alignment, diarization) as function-valued parameters in an `Env` record;
the file system as an association list of (path, content) pairs.
-/

/-- Decidable equality on `Except`, needed to evaluate the embedded
fallible functions on concrete inputs. -/
instance {ε α : Type} [DecidableEq ε] [DecidableEq α] :
    DecidableEq (Except ε α) := fun x y =>
  match x, y with
  | .ok a, .ok b =>
    if h : a = b then .isTrue (by rw [h]) else .isFalse (by simp [h])
  | .error a, .error b =>
    if h : a = b then .isTrue (by rw [h]) else .isFalse (by simp [h])
  | .ok _, .error _ => .isFalse (by simp)
  | .error _, .ok _ => .isFalse (by simp)

/-- Python whitespace test for `str.strip()` (space, tab, LF, CR, VT, FF). -/
def isPyWS (c : Char) : Bool :=
  c = ' ' || c = '\t' || c = '\n' || c = '\r' || c = '\x0b' || c = '\x0c'

/-- Python `str.strip()` on the underlying character list. -/
def pyStripList (l : List Char) : List Char :=
  ((l.dropWhile isPyWS).reverse.dropWhile isPyWS).reverse

/-- Python `str.strip()`: remove leading and trailing whitespace. -/
def pyStrip (s : String) : String :=
  ⟨pyStripList s.data⟩

/-- Python `f"{n:02d}"` for a non-negative value: zero-pad to width 2. -/
def pad2 (n : Nat) : String :=
  if n < 10 then "0" ++ toString n else toString n

/-- Python `f"{n:03d}"` for a non-negative value: zero-pad to width 3. -/
def pad3 (n : Nat) : String :=
  if n < 10 then "00" ++ toString n
  else if n < 100 then "0" ++ toString n
  else toString n

/-- Python `round()`: round to the nearest integer, ties to the even
integer (banker's rounding).  Stated on an exact rational value via
`Int.floor` and `Int.fract`. -/
def pyRound (x : ℚ) : ℤ :=
  if Int.fract x < 1 / 2 then ⌊x⌋
  else if 1 / 2 < Int.fract x then ⌊x⌋ + 1
  else if ⌊x⌋ % 2 = 0 then ⌊x⌋ else ⌊x⌋ + 1

/-- `round(q * 1000)` (Python banker's rounding), computed directly on
the numerator and denominator with integer arithmetic only, so that the
kernel can evaluate it on concrete inputs (`Rat` multiplication does not
reduce in the kernel).  `pyRoundTimes1000_eq` below proves it agrees
with `pyRound (q * 1000)`. -/
def pyRoundTimes1000 (q : ℚ) : ℤ :=
  let n := q.num * 1000
  let d : ℤ := (q.den : ℤ)
  let f := n.fdiv d
  let r2 := 2 * (n - f * d)
  if r2 < d then f
  else if d < r2 then f + 1
  else if f % 2 = 0 then f else f + 1

/-- Python `int()` applied to a float (e.g. `int(time.time())`):
truncation toward zero, computed on numerator/denominator. -/
def pyTruncInt (q : ℚ) : ℤ :=
  if 0 ≤ q.num then q.num.fdiv (q.den : ℤ) else -((-q.num).fdiv (q.den : ℤ))

/-- One decimal digit of a character, if any. -/
def digitVal (c : Char) : Option Nat :=
  if c.isDigit then some (c.toNat - '0'.toNat) else none

/-- Parse a list of decimal digits into a number; `none` when the list is
empty or holds a non-digit. -/
def digitsToNat : List Char → Option Nat
  | [] => none
  | l => l.foldl (fun acc c => do
      let a ← acc
      let d ← digitVal c
      pure (a * 10 + d)) (some 0)

/-- Python `int(s)` for a string: strip whitespace, optional sign, then
decimal digits; anything else raises `ValueError`.  (Underscore
separators and non-ASCII digits, which the app never receives from its
numeric text boxes, are not modelled.) -/
def pyInt (s : String) : Except String Int :=
  let t := pyStripList s.data
  let core : Option Int :=
    match t with
    | '-' :: ds => (digitsToNat ds).map (fun n => -(n : Int))
    | '+' :: ds => (digitsToNat ds).map (fun n => (n : Int))
    | ds => (digitsToNat ds).map (fun n => (n : Int))
  match core with
  | some v => .ok v
  | none => .error ("invalid literal for int() with base 10: " ++ s)

/-- `app.py` lines 61-78.  `format_timestamp(seconds,
always_include_hours, decimal_marker)`: assert non-negative, round
`seconds*1000` to whole milliseconds, then peel off hours, minutes,
seconds and milliseconds by division with explicit remainder
subtraction, exactly as the source does.  A negative input raises
`AssertionError` (modelled as the error branch). -/
def format_timestamp (seconds : ℚ) (always_include_hours : Bool)
    (decimal_marker : String) : Except String String :=
  if seconds < 0 then .error "non-negative timestamp expected"
  else
    let milliseconds : Nat := (pyRoundTimes1000 seconds).toNat
    let hours := milliseconds / 3600000
    let milliseconds := milliseconds - hours * 3600000
    let minutes := milliseconds / 60000
    let milliseconds := milliseconds - minutes * 60000
    let secs := milliseconds / 1000
    let milliseconds := milliseconds - secs * 1000
    let hours_marker := if always_include_hours = true ∨ 0 < hours
      then pad2 hours ++ ":" else ""
    .ok (hours_marker ++ pad2 minutes ++ ":" ++ pad2 secs ++
      decimal_marker ++ pad3 milliseconds)

/-- Rendering of the formatter that follows the words of the spec
(claim C2): the total millisecond count is decomposed with `/` and `%`
into hour/minute/second/millisecond fields, the 2-digit hour field and
its ":" appearing iff `always_include_hours` is true or hours > 0. -/
def formatFromTotalMs (total : Nat) (always_include_hours : Bool)
    (decimal_marker : String) : String :=
  (if always_include_hours = true ∨ 0 < total / 3600000
    then pad2 (total / 3600000) ++ ":" else "") ++
  pad2 (total % 3600000 / 60000) ++ ":" ++
  pad2 (total % 3600000 % 60000 / 1000) ++ decimal_marker ++
  pad3 (total % 1000)

/-- The rational 1.5 (exact value of the Python float `1.5`),
written in kernel-computable normal form. -/
def q1p5 : ℚ := Rat.mk' 3 2 (by decide) (by decide)

/-- The rational 3.75 (exact value of the Python float `3.75`). -/
def q3p75 : ℚ := Rat.mk' 15 4 (by decide) (by decide)

/-- The rational 3661.2005.  (The Python float literal `3661.2005` is
not exactly this value, but `3661.2005 * 1000.0` evaluates in IEEE
double arithmetic to exactly 3661200.5, the same value `q3661p2005 *
1000` has exactly, so the two computations round identically.) -/
def q3661p2005 : ℚ := Rat.mk' 7322401 2000 (by decide) (by decide)

/-- The rational 1700000000.2, a wall-clock instant. -/
def qTimeA : ℚ := Rat.mk' 8500000001 5 (by decide) (by decide)

/-- The rational 1700000000.7, a later instant in the same second. -/
def qTimeB : ℚ := Rat.mk' 17000000007 10 (by decide) (by decide)

/-- `app.py` lines 34-59, `WhisperXManager.__init__` state: the cached
model handle plus the key it was loaded under (all `None` initially). -/
structure MgrState (Model : Type) where
  asr_model : Option Model
  asr_options : Option String
  model_name : Option String
  device : Option String
  compute_type : Option String
deriving DecidableEq

/-- Fresh manager as built by `WhisperXManager.__init__`. -/
def initialManager {Model : Type} : MgrState Model :=
  ⟨none, none, none, none, none⟩

/-- The reload path of `get_asr_model`: invoke the external loader and,
on success, store handle and key.  On failure the exception propagates
and the state is untouched (the assignments in the source happen only
after `whisperx.load_model` returns). -/
def loadFresh {Model : Type}
    (load : String → String → String → Except String Model)
    (st : MgrState Model) (model_name device compute_type : String) :
    Except String (Model × MgrState Model × Bool) :=
  match load model_name device compute_type with
  | .error e => .error e
  | .ok h =>
    .ok (h,
      { st with
          asr_model := some h
          model_name := some model_name
          device := some device
          compute_type := some compute_type },
      true)

/-- `app.py` lines 43-59, `WhisperXManager.get_asr_model`: reload only
if there is no resident model or any key component changed; otherwise
return the resident handle.  The `Bool` records whether the external
loader was invoked during this call. -/
def get_asr_model {Model : Type}
    (load : String → String → String → Except String Model)
    (st : MgrState Model) (model_name device compute_type : String) :
    Except String (Model × MgrState Model × Bool) :=
  match st.asr_model with
  | none => loadFresh load st model_name device compute_type
  | some h =>
    if st.model_name ≠ some model_name ∨ st.device ≠ some device ∨
        st.compute_type ≠ some compute_type then
      loadFresh load st model_name device compute_type
    else .ok (h, st, false)

/-- One utterance unit of the transcript document.  The source stores it
as a dict with keys `start`, `end` (renamed `stop` here: `end` is a Lean
keyword), `text` and, after diarization, optionally `speaker`. -/
structure Segment where
  start : ℚ
  stop : ℚ
  text : String
  speaker : Option String
deriving DecidableEq

/-- The in-memory transcript document: the `result` dict of
`transcribe_audio` — a segment list plus the detected language key when
present. -/
structure TDoc where
  segments : List Segment
  language : Option String
deriving DecidableEq

/-- Python `text.replace("-->", "->")` on the character list: scan left
to right; at each position, if the next three characters are `-->`,
emit `->` and skip them, else keep one character.  This is exactly
CPython's leftmost non-overlapping replacement for this pattern. -/
def replArrow : List Char → List Char
  | a :: b :: c :: t =>
    if a = '-' ∧ b = '-' ∧ c = '>' then '-' :: '>' :: replArrow t
    else a :: replArrow (b :: c :: t)
  | l => l

/-- String wrapper for `replArrow`. -/
def replArrowStr (s : String) : String :=
  ⟨replArrow s.data⟩

/-- Does the character list begin with `-->`? -/
def startsArrow (l : List Char) : Bool :=
  decide (l.take 3 = ['-', '-', '>'])

/-- Does the character list contain `-->` anywhere? -/
def hasArrow : List Char → Bool
  | [] => false
  | c :: t => startsArrow (c :: t) || hasArrow t

/-- Does the character list begin with `--->` (the overlapping pattern
that survives Python's single-pass replacement)? -/
def startsDash3 (l : List Char) : Bool :=
  decide (l.take 4 = ['-', '-', '-', '>'])

/-- Does the character list contain `--->` anywhere? -/
def hasDash3 : List Char → Bool
  | [] => false
  | c :: t => startsDash3 (c :: t) || hasDash3 t

/-- `pat` occurs as a contiguous substring of `s`. -/
def strContains (s pat : String) : Prop :=
  pat.data <:+: s.data

instance (s pat : String) : Decidable (strContains s pat) :=
  List.decidableInfix pat.data s.data

/-- `s` starts with `pat`. -/
def strStartsWith (s pat : String) : Prop :=
  pat.data <+: s.data

instance (s pat : String) : Decidable (strStartsWith s pat) :=
  inferInstanceAs (Decidable (pat.data <+: s.data))

/-- `app.py` lines 249-253: one line of the plain-text artifact —
`[speaker]: text` when diarization is on and the segment carries a
speaker, else the bare stripped text. -/
def txtSegLine (diarize : Bool) (seg : Segment) : String :=
  match diarize, seg.speaker with
  | true, some spk => "[" ++ spk ++ "]: " ++ pyStrip seg.text ++ "\n"
  | _, _ => pyStrip seg.text ++ "\n"

/-- `app.py` lines 263-265: the cue text of one SRT block — stripped
text with `-->` rewritten to `->`, speaker-prefixed under the same
condition as the plain-text line. -/
def srtSegText (diarize : Bool) (seg : Segment) : String :=
  let text := replArrowStr (pyStrip seg.text)
  match diarize, seg.speaker with
  | true, some spk => "[" ++ spk ++ "]: " ++ text
  | _, _ => text

/-- `app.py` lines 278-280: the cue text of one VTT block (the source
repeats the SRT computation verbatim). -/
def vttSegText (diarize : Bool) (seg : Segment) : String :=
  let text := replArrowStr (pyStrip seg.text)
  match diarize, seg.speaker with
  | true, some spk => "[" ++ spk ++ "]: " ++ text
  | _, _ => text

/-- `app.py` line 267: one SRT block — 1-based index, timestamp line
with `always_include_hours=True` and comma marker, cue text, blank
line.  Fails when a timestamp is negative. -/
def srtBlockFor (diarize : Bool) (i : Nat) (seg : Segment) :
    Except String String :=
  match format_timestamp seg.start true "," with
  | .error e => .error e
  | .ok start_time =>
    match format_timestamp seg.stop true "," with
    | .error e => .error e
    | .ok end_time =>
      .ok (toString i ++ "\n" ++ start_time ++ " --> " ++ end_time ++ "\n" ++
        srtSegText diarize seg ++ "\n\n")

/-- `app.py` line 282: one VTT block — timestamp line with
`always_include_hours=False` and period marker, cue text, blank line;
no index field. -/
def vttBlockFor (diarize : Bool) (seg : Segment) : Except String String :=
  match format_timestamp seg.start false "." with
  | .error e => .error e
  | .ok start_time =>
    match format_timestamp seg.stop false "." with
    | .error e => .error e
    | .ok end_time =>
      .ok (start_time ++ " --> " ++ end_time ++ "\n" ++
        vttSegText diarize seg ++ "\n\n")

/-- Python `enumerate(xs, start=n)`. -/
def enumFrom {α : Type} (n : Nat) : List α → List (Nat × α)
  | [] => []
  | x :: xs => (n, x) :: enumFrom (n + 1) xs

/-- The file system, as an association list from path to content; a
write shadows earlier writes to the same path. -/
abbrev FS := List (String × String)

/-- Write (or overwrite) one file. -/
def writeFile (fs : FS) (path content : String) : FS :=
  (path, content) :: fs

/-- Read one file; `none` when the path was never written. -/
def readFile (fs : FS) (path : String) : Option String :=
  (fs.find? (fun e => e.1 == path)).map (fun e => e.2)

/-- Stand-in rendering of a rational for the JSON artifact. -/
def ratStr (q : ℚ) : String :=
  if q.den = 1 then toString q.num
  else toString q.num ++ "/" ++ toString q.den

/-- JSON rendering of one segment.  No claim constrains the JSON
artifact's text, only its existence and name; this serializer stands in
for `json.dump(result, f, ensure_ascii=False, indent=2)`. -/
def jsonOfSegment (s : Segment) : String :=
  "\x7b\"start\": " ++ ratStr s.start ++ ", \"end\": " ++ ratStr s.stop ++
  ", \"text\": \"" ++ s.text ++ "\"" ++
  (match s.speaker with
   | some spk => ", \"speaker\": \"" ++ spk ++ "\""
   | none => "") ++ "\x7d"

/-- JSON rendering of the whole document (see `jsonOfSegment`). -/
def jsonDump (doc : TDoc) : String :=
  "\x7b\"segments\": [" ++
  String.intercalate ", " (doc.segments.map jsonOfSegment) ++ "]" ++
  (match doc.language with
   | some l => ", \"language\": \"" ++ l ++ "\""
   | none => "") ++ "\x7d"

/-- `app.py` lines 238-290: the document exporter.  Writes the JSON,
plain-text, SRT and VTT artifacts in that order under one shared
prefix, then reads the plain-text artifact back as the display
transcript.  A failure while producing SRT/VTT blocks (negative
timestamp) propagates as the exception does in the source. -/
def exportResults (doc : TDoc) (diarize : Bool) (fs : FS)
    (output_dir fpref : String) :
    Except String (String × List String × FS) :=
  let json_path := output_dir ++ "/" ++ fpref ++ ".json"
  let fs1 := writeFile fs json_path (jsonDump doc)
  let txt_path := output_dir ++ "/" ++ fpref ++ ".txt"
  let fs2 := writeFile fs1 txt_path
    (String.join (doc.segments.map (txtSegLine diarize)))
  let srt_path := output_dir ++ "/" ++ fpref ++ ".srt"
  match (enumFrom 1 doc.segments).mapM (fun p => srtBlockFor diarize p.1 p.2) with
  | .error e => .error e
  | .ok srt_blocks =>
    let fs3 := writeFile fs2 srt_path (String.join srt_blocks)
    let vtt_path := output_dir ++ "/" ++ fpref ++ ".vtt"
    match doc.segments.mapM (vttBlockFor diarize) with
    | .error e => .error e
    | .ok vtt_blocks =>
      let fs4 := writeFile fs3 vtt_path ("WEBVTT\n\n" ++ String.join vtt_blocks)
      match readFile fs4 txt_path with
      | none => .error "FileNotFoundError"
      | some transcript =>
        .ok (transcript, [json_path, txt_path, srt_path, vtt_path], fs4)

/-- One invocation of an external capability, recorded in execution
order.  `runDiarize` records the speaker bounds actually handed to the
diarization capability. -/
inductive Cap where
  | load_model : Cap
  | transcribeCall : Cap
  | load_align : Cap
  | alignCall : Cap
  | mkDiarize : Cap
  | runDiarize (minS maxS : Option Int) : Cap
  | assignSpeakers : Cap
deriving DecidableEq

/-- The external capabilities `transcribe_audio` consumes (whisperx
model loader, transcription, alignment loader and aligner, diarization
pipeline constructor and invocation, speaker assignment), each of which
may raise. -/
structure Env (Model AlignModel AlignMeta DiarModel DiarSegs : Type) where
  load_model : String → String → String → Except String Model
  transcribe : Model → String → Option String → String → Nat → Nat →
    Except String TDoc
  load_align_model : String → String → Option String →
    Except String (AlignModel × AlignMeta)
  align : List Segment → AlignModel → AlignMeta → String → String → Bool →
    String → Except String (List Segment)
  diarizationPipeline : String → Option String → Except String DiarModel
  runDiarization : DiarModel → String → Option Int → Option Int →
    Except String DiarSegs
  assign_word_speakers : DiarSegs → List Segment →
    Except String (List Segment)

/-- The parameters of `transcribe_audio` that its body actually reads.
(The source signature accepts many more — VAD and decoding knobs — that
the body never uses; they are omitted.) -/
structure Config where
  model : String
  task : String
  language : Option String
  device : String
  compute_type : String
  batch_size : Nat
  align_model : Option String
  no_align : Bool
  interpolate_method : String
  return_char_alignments : Bool
  chunk_size : Nat
  diarize : Bool
  min_speakers : Option String
  max_speakers : Option String
  hotwords : Option String

/-- `app.py` lines 145-148: the audio input is either a gradio
`FileData` dict carrying a `path` key or a plain string path. -/
inductive AudioFile where
  | fileData (path : String) : AudioFile
  | plainPath (path : String) : AudioFile

/-- Extraction of the audio path from either input form. -/
def audioPathOf : AudioFile → String
  | .fileData p => p
  | .plainPath p => p

/-- `app.py` lines 189-191: language resolution for alignment — the
detected language defaults to `"en"` when the detector reported none,
and an explicit non-empty (after strip) `language` overrides it. -/
def resolveLanguage (language : Option String) (detected : Option String) :
    String :=
  let detected_language := detected.getD "en"
  match language with
  | some l => if l ≠ "" ∧ pyStrip l ≠ "" then pyStrip l else detected_language
  | none => detected_language

/-- `app.py` lines 154-157: `if min_speakers: min_speakers =
int(min_speakers)` — an absent or empty (falsy) value is passed
through as "not provided"; otherwise `int()` parses it, raising
`ValueError` on non-numeric input.  No positivity (or any range) check
is performed. -/
def parseSpeakerBound (v : Option String) : Except String (Option Int) :=
  match v with
  | none => .ok none
  | some s =>
    if s ≠ "" then
      match pyInt s with
      | .error e => .error e
      | .ok n => .ok (some n)
    else .ok none

/-- `app.py` lines 139-141: the run-scoped artifact name prefix,
`f"transcript_{int(time.time())}"`. -/
def runPrefixOf (now : ℚ) : String :=
  "transcript_" ++ toString (pyTruncInt now)

/-- `app.py` lines 185-218: the alignment stage.  Skipped when
`no_align`; otherwise loads an alignment model for the resolved
language (honouring a non-empty `align_model` override) and replaces
the segments with aligned ones.  The aligned result dict no longer
carries a `language` key. -/
def alignStage {M AM AMe DM DS : Type} (env : Env M AM AMe DM DS)
    (cfg : Config) (audio_path : String) (result : TDoc) (tr : List Cap) :
    Except String TDoc × List Cap :=
  if cfg.no_align then (.ok result, tr)
  else
    let detected_language := resolveLanguage cfg.language result.language
    let tr1 := tr ++ [Cap.load_align]
    let loaded :=
      match cfg.align_model with
      | some am =>
        if am ≠ "" ∧ pyStrip am ≠ "" then
          env.load_align_model detected_language cfg.device (some am)
        else env.load_align_model detected_language cfg.device none
      | none => env.load_align_model detected_language cfg.device none
    match loaded with
    | .error e => (.error e, tr1)
    | .ok (amod, ameta) =>
      let tr2 := tr1 ++ [Cap.alignCall]
      match env.align result.segments amod ameta audio_path cfg.device
          cfg.return_char_alignments cfg.interpolate_method with
      | .error e => (.error e, tr2)
      | .ok segs => (.ok ⟨segs, none⟩, tr2)

/-- `app.py` lines 221-232: the diarization stage.  Run only when
`diarize`; constructs the diarization pipeline, invokes it with the
parsed speaker bounds, then merges speakers into the segments. -/
def diarizeStage {M AM AMe DM DS : Type} (env : Env M AM AMe DM DS)
    (cfg : Config) (audio_path : String) (minS maxS : Option Int)
    (hf_token : Option String) (doc : TDoc) (tr : List Cap) :
    Except String TDoc × List Cap :=
  if cfg.diarize then
    let tr1 := tr ++ [Cap.mkDiarize]
    match env.diarizationPipeline cfg.device hf_token with
    | .error e => (.error e, tr1)
    | .ok dm =>
      let tr2 := tr1 ++ [Cap.runDiarize minS maxS]
      match env.runDiarization dm audio_path minS maxS with
      | .error e => (.error e, tr2)
      | .ok dsegs =>
        let tr3 := tr2 ++ [Cap.assignSpeakers]
        match env.assign_word_speakers dsegs doc.segments with
        | .error e => (.error e, tr3)
        | .ok segs => (.ok ⟨segs, doc.language⟩, tr3)
  else (.ok doc, tr)

/-- `app.py` lines 80-300, `transcribe_audio`: the top-level entry
point.  Runs cache lookup, speaker-bound parsing, transcription,
alignment, diarization and export in source order; every raised error
is caught by the enclosing `try`/`except` blocks and converted into
`("Error: " + message, [])`.  Returns the user-visible pair together
with the final manager state, file system, and the trace of external
capability invocations. -/
def transcribe_audio {M AM AMe DM DS : Type} (env : Env M AM AMe DM DS)
    (mgr : MgrState M) (fs : FS) (cfg : Config) (now : ℚ)
    (audio_file : AudioFile) :
    (String × List String) × MgrState M × FS × List Cap :=
  let output_dir := "whisperx_output"
  let fpref := runPrefixOf now
  let audio_path := audioPathOf audio_file
  match get_asr_model env.load_model mgr cfg.model cfg.device cfg.compute_type with
  | .error e => (("Error: " ++ e, []), mgr, fs, [Cap.load_model])
  | .ok (model_manager, mgr1, invoked) =>
    let tr0 := if invoked then [Cap.load_model] else []
    match parseSpeakerBound cfg.min_speakers with
    | .error e => (("Error: " ++ e, []), mgr1, fs, tr0)
    | .ok minS =>
      match parseSpeakerBound cfg.max_speakers with
      | .error e => (("Error: " ++ e, []), mgr1, fs, tr0)
      | .ok maxS =>
        let _hotwords_list := cfg.hotwords.map
          (fun hws => ((hws.splitOn ",").map pyStrip))
        let hf_token : Option String := none
        let tr1 := tr0 ++ [Cap.transcribeCall]
        match env.transcribe model_manager audio_path cfg.language cfg.task
            cfg.batch_size cfg.chunk_size with
        | .error e => (("Error: " ++ e, []), mgr1, fs, tr1)
        | .ok result =>
          match alignStage env cfg audio_path result tr1 with
          | (.error e, tr2) => (("Error: " ++ e, []), mgr1, fs, tr2)
          | (.ok doc, tr2) =>
            match diarizeStage env cfg audio_path minS maxS hf_token doc tr2 with
            | (.error e, tr3) => (("Error: " ++ e, []), mgr1, fs, tr3)
            | (.ok doc2, tr3) =>
              match exportResults doc2 cfg.diarize fs output_dir fpref with
              | .error e => (("Error: " ++ e, []), mgr1, fs, tr3)
              | .ok (transcript, output_files, fs2) =>
                ((transcript, output_files), mgr1, fs2, tr3)

/-- A concrete capability environment for evaluating the pipeline on
closed inputs: every capability succeeds with a fixed value and the
transcription stage yields one "hello world" segment. -/
def envSample : Env Nat Nat Nat Nat Nat where
  load_model := fun _ _ _ => .ok 7
  transcribe := fun _ _ _ _ _ _ => .ok ⟨[⟨q1p5, q3p75, "hello world", none⟩], some "en"⟩
  load_align_model := fun _ _ _ => .ok (1, 2)
  align := fun segs _ _ _ _ _ _ => .ok segs
  diarizationPipeline := fun _ _ => .ok 3
  runDiarization := fun _ _ _ _ => .ok 4
  assign_word_speakers := fun _ segs => .ok segs

/-- A baseline configuration matching the UI defaults. -/
def cfgSample : Config where
  model := "medium"
  task := "transcribe"
  language := none
  device := "cpu"
  compute_type := "float16"
  batch_size := 16
  align_model := none
  no_align := false
  interpolate_method := "nearest"
  return_char_alignments := false
  chunk_size := 30
  diarize := true
  min_speakers := none
  max_speakers := some "-2"
  hotwords := none

/-- The single-segment document of the end-to-end scenario. -/
def docHello : TDoc := ⟨[⟨q1p5, q3p75, "hello world", none⟩], some "en"⟩

/-- The exporter applied to the end-to-end scenario document. -/
def helloRun : Except String (String × List String × FS) :=
  exportResults docHello false [] "whisperx_output" "transcript_1700000000"

/-- The file system after the end-to-end exporter run. -/
def helloRunFS : FS :=
  match helloRun with
  | .ok (_, _, f) => f
  | .error _ => []

/-- A loader for exercising the cache contract on closed inputs: the
handle is the length of the model name. -/
def loadW : String → String → String → Except String Nat :=
  fun model_name _ _ => .ok model_name.length

/-- The manager state after loading `("medium", "cuda", "float16")`
through `loadW`. -/
def stW : MgrState Nat :=
  ⟨some 6, none, some "medium", some "cuda", some "float16"⟩

/-- A diarized segment whose text contains a literal `-->`. -/
def segSpeakerW : Segment :=
  ⟨q1p5, q3p75, "say --> go", some "SPEAKER_00"⟩

/-- The pipeline run on `envSample`/`cfgSample`: diarization enabled
with `max_speakers = "-2"`, started at wall-clock `qTimeA`. -/
def negBoundRun :
    (String × List String) × MgrState Nat × FS × List Cap :=
  transcribe_audio envSample initialManager [] cfgSample qTimeA
    (AudioFile.plainPath "audio.wav")

/-- `cfgSample` with a non-numeric `max_speakers` value. -/
def cfgBadBound : Config :=
  { cfgSample with max_speakers := some "abc" }

/-! ### Lemmas about the `-->` sanitization (claim C5) -/

/-- `startsArrow` detects exactly a `-->` prefix. -/
theorem startsArrow_iff (l : List Char) :
    startsArrow l = true ↔ ['-', '-', '>'] <+: l := by
  rw [startsArrow, decide_eq_true_eq, List.prefix_iff_eq_take]
  simp [eq_comm]

/-- `startsDash3` detects exactly a `--->` prefix. -/
theorem startsDash3_iff (l : List Char) :
    startsDash3 l = true ↔ ['-', '-', '-', '>'] <+: l := by
  rw [startsDash3, decide_eq_true_eq, List.prefix_iff_eq_take]
  simp [eq_comm]

/-- `hasArrow` detects exactly a `-->` substring. -/
theorem hasArrow_iff (l : List Char) :
    hasArrow l = true ↔ ['-', '-', '>'] <:+: l := by
  induction l with
  | nil => simp [hasArrow]
  | cons c t ih =>
    rw [hasArrow, Bool.or_eq_true, ih, startsArrow_iff, List.infix_cons_iff]

/-- `hasDash3` detects exactly a `--->` substring. -/
theorem hasDash3_iff (l : List Char) :
    hasDash3 l = true ↔ ['-', '-', '-', '>'] <:+: l := by
  induction l with
  | nil => simp [hasDash3]
  | cons c t ih =>
    rw [hasDash3, Bool.or_eq_true, ih, startsDash3_iff, List.infix_cons_iff]

/-- If the single-pass replacement produced a list starting with `>`,
the input already started with `>`. -/
theorem replArrow_gt_head {m x : List Char} (h : replArrow m = '>' :: x) :
    ∃ r, m = '>' :: r := by
  match m with
  | [] => exact absurd h (by simp [replArrow])
  | [a] =>
    have h2 : [a] = '>' :: x := h
    injection h2 with h3 _
    exact ⟨[], by rw [h3]⟩
  | [a, b] =>
    have h2 : [a, b] = '>' :: x := h
    injection h2 with h3 _
    exact ⟨[b], by rw [h3]⟩
  | a :: b :: c :: t =>
    by_cases hc : a = '-' ∧ b = '-' ∧ c = '>'
    · rw [show replArrow (a :: b :: c :: t) = '-' :: '>' :: replArrow t from
        by rw [replArrow, if_pos hc]] at h
      injection h with h3 _
      exact absurd h3 (by decide)
    · rw [show replArrow (a :: b :: c :: t) = a :: replArrow (b :: c :: t) from
        by rw [replArrow, if_neg hc]] at h
      injection h with h3 _
      exact ⟨b :: c :: t, by rw [h3]⟩

/-- If the single-pass replacement produced a list starting with `->`,
the input started with `->` or with `-->`. -/
theorem replArrow_dash_gt_head {m x : List Char}
    (h : replArrow m = '-' :: '>' :: x) :
    (∃ r, m = '-' :: '>' :: r) ∨ (∃ r, m = '-' :: '-' :: '>' :: r) := by
  match m with
  | [] => exact absurd h (by simp [replArrow])
  | [a] =>
    have h2 : [a] = '-' :: '>' :: x := h
    exact absurd h2 (by simp)
  | [a, b] =>
    have h2 : [a, b] = '-' :: '>' :: x := h
    injection h2 with h3 h4
    injection h4 with h5 _
    exact .inl ⟨[], by rw [h3, h5]⟩
  | a :: b :: c :: t =>
    by_cases hc : a = '-' ∧ b = '-' ∧ c = '>'
    · exact .inr ⟨t, by rw [hc.1, hc.2.1, hc.2.2]⟩
    · rw [show replArrow (a :: b :: c :: t) = a :: replArrow (b :: c :: t) from
        by rw [replArrow, if_neg hc]] at h
      injection h with h3 h4
      obtain ⟨r, hr⟩ := replArrow_gt_head h4
      injection hr with h5 h6
      exact .inl ⟨c :: t, by rw [h3, h5]⟩

/-- Single-pass replacement of `-->` by `->` leaves no `-->` behind,
provided the input contains no overlapping occurrence `--->`. -/
theorem hasArrow_replArrow {s : List Char} (h : hasDash3 s = false) :
    hasArrow (replArrow s) = false := by
  induction s using replArrow.induct with
  | case1 a b c t hc ih =>
    obtain ⟨ha, hb, hcgt⟩ := hc
    subst ha; subst hb; subst hcgt
    rw [show replArrow ('-' :: '-' :: '>' :: t) = '-' :: '>' :: replArrow t from
      by rw [replArrow, if_pos ⟨rfl, rfl, rfl⟩]]
    have ht : hasDash3 t = false := by
      simp only [hasDash3, Bool.or_eq_false_iff] at h
      exact h.2.2.2
    have iht := ih ht
    simp only [hasArrow, Bool.or_eq_false_iff]
    refine ⟨?_, ?_, iht⟩
    · simp [startsArrow, List.take_succ_cons]
    · simp [startsArrow, List.take_succ_cons]
  | case2 a b c t hc ih =>
    rw [show replArrow (a :: b :: c :: t) = a :: replArrow (b :: c :: t) from
      by rw [replArrow, if_neg hc]]
    have ht : hasDash3 (b :: c :: t) = false := by
      simp only [hasDash3, Bool.or_eq_false_iff] at h
      simp only [hasDash3, Bool.or_eq_false_iff]
      exact ⟨h.2.1, h.2.2⟩
    have iht := ih ht
    simp only [hasArrow, Bool.or_eq_false_iff]
    refine ⟨?_, iht⟩
    rcases hX : replArrow (b :: c :: t) with _ | ⟨x1, X1⟩
    · simp [startsArrow, hX]
    rcases hX1 : X1 with _ | ⟨x2, X2⟩
    · simp only [startsArrow]
      rw [show ((a :: [x1]).take 3) = [a, x1] from rfl]
      simp
    · subst hX1
      by_cases hpat : a = '-' ∧ x1 = '-' ∧ x2 = '>'
      · exfalso
        obtain ⟨ha, hx1, hx2⟩ := hpat
        subst ha; subst hx1; subst hx2
        rcases replArrow_dash_gt_head hX with ⟨r, hr⟩ | ⟨r, hr⟩
        · injection hr with h5 h6
          injection h6 with h7 _
          exact hc ⟨rfl, h5, h7⟩
        · injection hr with h5 h6
          injection h6 with h7 h8
          rw [h5, h7, h8] at h
          simp [hasDash3, startsDash3] at h
      · simp only [startsArrow]
        rw [show ((a :: x1 :: x2 :: X2).take 3) = [a, x1, x2] from rfl]
        simp only [decide_eq_false_iff_not]
        intro hh
        injection hh with e1 hh
        injection hh with e2 hh
        injection hh with e3 _
        exact hpat ⟨e1, e2, e3⟩
  | case3 l hne =>
    rcases l with _ | ⟨a, _ | ⟨b, _ | ⟨c, t⟩⟩⟩
    · simp [replArrow, hasArrow]
    · simp [replArrow, hasArrow, startsArrow]
    · rw [show replArrow [a, b] = [a, b] from rfl]
      simp only [hasArrow, Bool.or_eq_false_iff]
      refine ⟨?_, ?_, True.intro⟩ <;> simp [startsArrow]
    · exact absurd rfl (hne a b c t)

/-- Prepending a character other than `-` cannot create a `-->`. -/
theorem hasArrow_cons_of_ne {c : Char} (l : List Char) (hc : c ≠ '-') :
    hasArrow (c :: l) = hasArrow l := by
  rw [hasArrow]
  have hsa : startsArrow (c :: l) = false := by
    simp only [startsArrow, List.take_succ_cons, decide_eq_false_iff_not]
    intro hh
    injection hh with e1 _
    exact hc e1
  rw [hsa, Bool.false_or]

/-- Splicing `]: ` between two `-->`-free lists keeps the result
`-->`-free (the separator characters occur in no `-->` window). -/
theorem hasArrow_append_sep (sp body : List Char)
    (hsp : hasArrow sp = false) (hb : hasArrow body = false) :
    hasArrow (sp ++ ']' :: ':' :: ' ' :: body) = false := by
  induction sp with
  | nil =>
    rw [List.nil_append, hasArrow_cons_of_ne _ (by decide),
      hasArrow_cons_of_ne _ (by decide), hasArrow_cons_of_ne _ (by decide)]
    exact hb
  | cons c sp ih =>
    rw [hasArrow] at hsp
    rw [Bool.or_eq_false_iff] at hsp
    rw [List.cons_append, hasArrow, Bool.or_eq_false_iff]
    refine ⟨?_, ih hsp.2⟩
    rcases sp with _ | ⟨d, _ | ⟨e, r⟩⟩
    · simp [startsArrow, List.take_succ_cons]
    · simp [startsArrow, List.take_succ_cons]
    · have : startsArrow (c :: d :: e :: r) = false := hsp.1
      simp only [startsArrow, List.take_succ_cons, decide_eq_false_iff_not] at this ⊢
      exact this

/-- A `-->`-free list, seen through `hasArrow`. -/
theorem not_infix_arrow_of_hasArrow_false {l : List Char}
    (h : hasArrow l = false) : ¬ ['-', '-', '>'] <:+: l := by
  intro hc
  rw [← hasArrow_iff] at hc
  rw [h] at hc
  exact Bool.false_ne_true hc

/-- Claim C5 (amended): the SRT and VTT cue texts are the stripped
segment text after one left-to-right non-overlapping replacement of
`-->` by `->` (speaker-prefixed when applicable); the cue text is free
of `-->` provided the stripped text has no overlapping occurrence
`--->` and the speaker label (which the source does not sanitize)
contains no `-->`. -/
theorem cue_text_sanitization (d : Bool) (seg : Segment)
    (htext : ¬ strContains (pyStrip seg.text) "--->")
    (hspk : ∀ spk, seg.speaker = some spk → ¬ strContains spk "-->") :
    ¬ strContains (srtSegText d seg) "-->" ∧
    ¬ strContains (vttSegText d seg) "-->" := by
  have hbody : hasArrow (replArrow (pyStrip seg.text).data) = false := by
    apply hasArrow_replArrow
    rw [← Bool.not_eq_true, hasDash3_iff]
    exact htext
  have hplain : ¬ strContains (replArrowStr (pyStrip seg.text)) "-->" := by
    intro hc
    exact not_infix_arrow_of_hasArrow_false hbody hc
  cases d with
  | false =>
    cases hsp : seg.speaker with
    | none =>
      refine ⟨?_, ?_⟩ <;> · simpa [srtSegText, vttSegText, hsp] using hplain
    | some spk =>
      refine ⟨?_, ?_⟩ <;> · simpa [srtSegText, vttSegText, hsp] using hplain
  | true =>
    cases hsp : seg.speaker with
    | none =>
      refine ⟨?_, ?_⟩ <;> · simpa [srtSegText, vttSegText, hsp] using hplain
    | some spk =>
      have hspkArrow : hasArrow spk.data = false := by
        rw [← Bool.not_eq_true, hasArrow_iff]
        exact hspk spk hsp
      have hfull :
          hasArrow ('[' :: (spk.data ++ ']' :: ':' :: ' ' ::
            replArrow (pyStrip seg.text).data)) = false := by
        rw [hasArrow_cons_of_ne _ (by decide)]
        exact hasArrow_append_sep _ _ hspkArrow hbody
      have hpre :
          ¬ strContains ("[" ++ spk ++ "]: " ++ replArrowStr (pyStrip seg.text))
            "-->" := by
        intro hc
        rw [strContains] at hc
        have hd : ("[" ++ spk ++ "]: " ++ replArrowStr (pyStrip seg.text)).data
            = '[' :: (spk.data ++ ']' :: ':' :: ' ' ::
              replArrow (pyStrip seg.text).data) := by
          simp [String.data_append, replArrowStr]
        rw [hd] at hc
        exact not_infix_arrow_of_hasArrow_false hfull hc
      refine ⟨?_, ?_⟩ <;> · simpa [srtSegText, vttSegText, hsp] using hpre

/-- Counterexample to claim C5 as stated: for the segment text `--->`
the written SRT/VTT cue text is exactly `-->`, which does contain the
forbidden substring. -/
theorem cue_text_sanitization_counterexample :
    srtSegText false ⟨q1p5, q3p75, "--->", none⟩ = "-->" ∧
    vttSegText false ⟨q1p5, q3p75, "--->", none⟩ = "-->" ∧
    strContains (srtSegText false ⟨q1p5, q3p75, "--->", none⟩) "-->" := by
  refine ⟨by decide, by decide, ?_⟩
  decide

/-- Witness for `cue_text_sanitization` at a concrete diarized
segment. -/
theorem cue_text_sanitization_witness :
    ¬ strContains (srtSegText true segSpeakerW) "-->" ∧
    ¬ strContains (vttSegText true segSpeakerW) "-->" :=
  cue_text_sanitization true segSpeakerW (by decide)
    (fun spk h => by
      have h2 : some "SPEAKER_00" = some spk := h
      injection h2 with h3
      rw [← h3]
      decide)

/-! ### The timestamp formatter (claim C2) -/

/-- The integer-arithmetic rounding used by the embedded formatter
agrees with banker's rounding of `q * 1000`. -/
theorem pyRoundTimes1000_eq (q : ℚ) :
    pyRoundTimes1000 q = pyRound (q * 1000) := by
  have hdpos : (0 : ℚ) < ((q.den : ℕ) : ℚ) := by
    exact_mod_cast q.den_pos
  have hden : ((q.den : ℕ) : ℚ) ≠ 0 := ne_of_gt hdpos
  have hx : q * 1000 = ((q.num * 1000 : ℤ) : ℚ) / ((q.den : ℕ) : ℚ) := by
    conv_lhs => rw [← Rat.num_div_den q]
    push_cast
    ring
  have hfloor : (q.num * 1000).fdiv ((q.den : ℕ) : ℤ) = ⌊q * 1000⌋ := by
    rw [hx, Rat.floor_intCast_div_natCast, Int.fdiv_eq_ediv _ (by positivity)]
  have hxd : (q * 1000) * ((q.den : ℕ) : ℚ) = (q.num : ℚ) * 1000 := by
    rw [hx]
    field_simp
  have hfr : Int.fract (q * 1000) = q * 1000 - (⌊q * 1000⌋ : ℚ) := rfl
  have hsub : (q * 1000 - (⌊q * 1000⌋ : ℚ)) * ((q.den : ℕ) : ℚ) =
      (q.num : ℚ) * 1000 - (⌊q * 1000⌋ : ℚ) * ((q.den : ℕ) : ℚ) := by
    rw [sub_mul, hxd]
  have c1 : (2 * (q.num * 1000 - ⌊q * 1000⌋ * ((q.den : ℕ) : ℤ)) <
      ((q.den : ℕ) : ℤ)) ↔ Int.fract (q * 1000) < 1 / 2 := by
    rw [hfr]
    constructor
    · intro h
      have hQ : 2 * ((q.num : ℚ) * 1000 - (⌊q * 1000⌋ : ℚ) * ((q.den : ℕ) : ℚ)) <
          ((q.den : ℕ) : ℚ) := by exact_mod_cast h
      rw [← mul_lt_mul_right hdpos, hsub]
      linarith
    · intro h
      have h2 := mul_lt_mul_of_pos_right h hdpos
      rw [hsub] at h2
      have h3 : 2 * ((q.num : ℚ) * 1000 - (⌊q * 1000⌋ : ℚ) * ((q.den : ℕ) : ℚ)) <
          ((q.den : ℕ) : ℚ) := by linarith
      exact_mod_cast h3
  have c2 : (((q.den : ℕ) : ℤ) <
      2 * (q.num * 1000 - ⌊q * 1000⌋ * ((q.den : ℕ) : ℤ))) ↔
      1 / 2 < Int.fract (q * 1000) := by
    rw [hfr]
    constructor
    · intro h
      have hQ : ((q.den : ℕ) : ℚ) <
          2 * ((q.num : ℚ) * 1000 - (⌊q * 1000⌋ : ℚ) * ((q.den : ℕ) : ℚ)) := by
        exact_mod_cast h
      rw [← mul_lt_mul_right hdpos, hsub]
      linarith
    · intro h
      have h2 := mul_lt_mul_of_pos_right h hdpos
      rw [hsub] at h2
      have h3 : ((q.den : ℕ) : ℚ) <
          2 * ((q.num : ℚ) * 1000 - (⌊q * 1000⌋ : ℚ) * ((q.den : ℕ) : ℚ)) := by
        linarith
      exact_mod_cast h3
  simp only [pyRoundTimes1000, pyRound, hfloor]
  simp only [c1, c2]

/-- Claim C2 (amended): for every non-negative seconds value the
formatter output is exactly the divisibility decomposition of
`round(seconds*1000)` rendered with 2/2/2/3-digit zero padding, the
hour field present iff `always_include_hours` or hours > 0; the first
spec example holds, and the second one rounds to `,200` (Python `round`
is banker's rounding and `3661.2005 * 1000.0` is an exact tie), not the
claimed `,201`. -/
theorem format_timestamp_characterization :
    (∀ (s : ℚ), 0 ≤ s → ∀ (b : Bool) (m : String),
      format_timestamp s b m =
        .ok (formatFromTotalMs (pyRound (s * 1000)).toNat b m)) ∧
    format_timestamp 0 false "." = .ok "00:00.000" ∧
    format_timestamp q3661p2005 true "," = .ok "01:01:01,200" := by
  refine ⟨?_, by decide, by decide⟩
  intro s hs b m
  rw [← pyRoundTimes1000_eq]
  simp only [format_timestamp, formatFromTotalMs]
  rw [if_neg (not_lt.mpr hs)]
  set t := (pyRoundTimes1000 s).toNat with ht
  have e1 : t - t / 3600000 * 3600000 = t % 3600000 := by omega
  have e2 : t % 3600000 - t % 3600000 / 60000 * 60000 = t % 3600000 % 60000 := by
    omega
  have e3 : t % 3600000 % 60000 - t % 3600000 % 60000 / 1000 * 1000 =
      t % 1000 := by omega
  rw [e1, e2, e3]

/-- Counterexample to claim C2 as stated: the formatter yields
`01:01:01,200` on 3661.2005, not the claimed `01:01:01,201`. -/
theorem format_timestamp_example_counterexample :
    format_timestamp q3661p2005 true "," = .ok "01:01:01,200" ∧
    format_timestamp q3661p2005 true "," ≠
      (.ok "01:01:01,201" : Except String String) := by
  exact ⟨by decide, by decide⟩

/-- Witness for `format_timestamp_characterization` at 1.5 s. -/
theorem format_timestamp_characterization_witness :
    0 ≤ q1p5 ∧ format_timestamp q1p5 true "," =
      .ok (formatFromTotalMs (pyRound (q1p5 * 1000)).toNat true ",") :=
  ⟨by decide, format_timestamp_characterization.1 q1p5 (by decide) true ","⟩

/-! ### The model cache (claim C3) -/

/-- Claim C3: after a completed `get_asr_model` call, a second call with
the identical key returns the same handle without invoking the loader
(`false` flag), while a second call with any differing key component
invokes the loader exactly once (`true` flag), replaces the resident
handle with the newly loaded one, and returns it. -/
theorem get_asr_model_cache_contract {Model : Type}
    (load : String → String → String → Except String Model)
    (st0 st1 : MgrState Model) (m d c m2 d2 c2 : String) (h1 : Model) (b : Bool)
    (hfirst : get_asr_model load st0 m d c = .ok (h1, st1, b)) :
    (m2 = m → d2 = d → c2 = c →
      get_asr_model load st1 m2 d2 c2 = .ok (h1, st1, false)) ∧
    ((m2 ≠ m ∨ d2 ≠ d ∨ c2 ≠ c) → ∀ h2, load m2 d2 c2 = .ok h2 →
      get_asr_model load st1 m2 d2 c2 =
        .ok (h2, { st1 with
          asr_model := some h2
          model_name := some m2
          device := some d2
          compute_type := some c2 }, true)) := by
  have hstate : st1.asr_model = some h1 ∧ st1.model_name = some m ∧
      st1.device = some d ∧ st1.compute_type = some c := by
    unfold get_asr_model at hfirst
    split at hfirst
    · unfold loadFresh at hfirst
      split at hfirst
      · simp at hfirst
      · simp only [Except.ok.injEq, Prod.mk.injEq] at hfirst
        obtain ⟨e1, e2, -⟩ := hfirst
        rw [← e2, ← e1]
        exact ⟨rfl, rfl, rfl, rfl⟩
    · split at hfirst
      · unfold loadFresh at hfirst
        split at hfirst
        · simp at hfirst
        · simp only [Except.ok.injEq, Prod.mk.injEq] at hfirst
          obtain ⟨e1, e2, -⟩ := hfirst
          rw [← e2, ← e1]
          exact ⟨rfl, rfl, rfl, rfl⟩
      · rename_i h0 hm hcond
        push_neg at hcond
        simp only [Except.ok.injEq, Prod.mk.injEq] at hfirst
        obtain ⟨e1, e2, -⟩ := hfirst
        rw [← e2, hm, e1]
        exact ⟨rfl, hcond.1, hcond.2.1, hcond.2.2⟩
  obtain ⟨ha, hmn, hdv, hct⟩ := hstate
  constructor
  · intro e1 e2 e3
    subst e1; subst e2; subst e3
    unfold get_asr_model
    have hno : ¬ (st1.model_name ≠ some m2 ∨ st1.device ≠ some d2 ∨
        st1.compute_type ≠ some c2) := by
      push_neg
      exact ⟨hmn, hdv, hct⟩
    simp only [ha, if_neg hno]
  · intro hne h2 hl2
    have hcond : st1.model_name ≠ some m2 ∨ st1.device ≠ some d2 ∨
        st1.compute_type ≠ some c2 := by
      rcases hne with h | h | h
      · refine .inl ?_
        rw [hmn]
        intro heq
        injection heq with heq2
        exact h heq2.symm
      · refine .inr (.inl ?_)
        rw [hdv]
        intro heq
        injection heq with heq2
        exact h heq2.symm
      · refine .inr (.inr ?_)
        rw [hct]
        intro heq
        injection heq with heq2
        exact h heq2.symm
    unfold get_asr_model
    simp only [ha, if_pos hcond]
    unfold loadFresh
    rw [hl2]

/-- Witness for `get_asr_model_cache_contract`: after loading
`("medium","cuda","float16")` into a fresh manager, the identical
second request returns the cached handle without a reload. -/
theorem get_asr_model_cache_contract_witness :
    get_asr_model loadW stW "medium" "cuda" "float16" = .ok (6, stW, false) :=
  (get_asr_model_cache_contract loadW initialManager stW "medium" "cuda"
    "float16" "medium" "cuda" "float16" 6 true (by decide)).1 rfl rfl rfl

/-! ### Language resolution (claim C4) -/

/-- Claim C4: a non-empty-after-strip explicit language overrides the
detector output; otherwise the detector's result is used, and if the
detector yielded no language the resolution falls back to `"en"`. -/
theorem resolveLanguage_resolution (language detected : Option String) :
    (∀ l, language = some l → pyStrip l ≠ "" →
      resolveLanguage language detected = pyStrip l) ∧
    ((∀ l, language = some l → pyStrip l = "") →
      (∀ dl, detected = some dl → resolveLanguage language detected = dl) ∧
      (detected = none → resolveLanguage language detected = "en")) := by
  constructor
  · intro l hl hne
    subst hl
    have hl0 : l ≠ "" := by
      intro h0
      subst h0
      exact hne (by decide)
    simp only [resolveLanguage]
    rw [if_pos ⟨hl0, hne⟩]
  · intro hstrip
    constructor
    · intro dl hdl
      subst hdl
      cases language with
      | none => simp [resolveLanguage]
      | some l =>
        simp only [resolveLanguage]
        rw [if_neg]
        · simp
        · rintro ⟨-, h2⟩
          exact h2 (hstrip l rfl)
    · intro hdet
      subst hdet
      cases language with
      | none => simp [resolveLanguage]
      | some l =>
        simp only [resolveLanguage]
        rw [if_neg]
        · simp
        · rintro ⟨-, h2⟩
          exact h2 (hstrip l rfl)

/-- Witness for `resolveLanguage_resolution`: explicit `"fr"` overrides
a detected `"en"`. -/
theorem resolveLanguage_resolution_witness :
    pyStrip "fr" ≠ "" ∧ resolveLanguage (some "fr") (some "en") = pyStrip "fr" :=
  ⟨by decide,
    (resolveLanguage_resolution (some "fr") (some "en")).1 "fr" rfl (by decide)⟩

/-! ### Run-prefix uniqueness (claim C9) -/

/-- Claim C9 fails on the code: `int(time.time())` has one-second
resolution, so two distinct run start times inside the same wall-clock
second produce the same artifact name prefix (and their artifacts
therefore overwrite each other). -/
theorem run_prefix_collision :
    runPrefixOf qTimeA = runPrefixOf qTimeB ∧ qTimeA ≠ qTimeB ∧
    runPrefixOf qTimeA = "transcript_1700000000" := by
  refine ⟨by decide, by decide, by decide⟩

/-! ### The exporter (claims C1, C7) -/

/-- A successful export always names exactly the four artifacts
json/txt/srt/vtt, in that order, under the shared prefix. -/
theorem exportResults_ok_files {doc : TDoc} {d : Bool} {fs : FS}
    {od fp t : String} {files : List String} {fsOut : FS}
    (h : exportResults doc d fs od fp = .ok (t, files, fsOut)) :
    files = [od ++ "/" ++ fp ++ ".json", od ++ "/" ++ fp ++ ".txt",
      od ++ "/" ++ fp ++ ".srt", od ++ "/" ++ fp ++ ".vtt"] := by
  simp only [exportResults] at h
  split at h
  · simp at h
  · split at h
    · simp at h
    · split at h
      · simp at h
      · simp only [Except.ok.injEq, Prod.mk.injEq] at h
        exact h.2.1.symm

/-- Claim C7: the display transcript returned by a successful export is
exactly what a read of the just-written plain-text artifact yields in
the final file system. -/
theorem display_text_matches_artifact (doc : TDoc) (d : Bool) (fs : FS)
    (od fp t : String) (files : List String) (fsOut : FS)
    (h : exportResults doc d fs od fp = .ok (t, files, fsOut)) :
    readFile fsOut (od ++ "/" ++ fp ++ ".txt") = some t := by
  simp only [exportResults] at h
  split at h
  · simp at h
  · split at h
    · simp at h
    · split at h
      · simp at h
      · rename_i transcript hread
        simp only [Except.ok.injEq, Prod.mk.injEq] at h
        obtain ⟨e1, -, e3⟩ := h
        rw [← e3, ← e1]
        exact hread

/-- Witness for `display_text_matches_artifact` on the end-to-end
scenario document. -/
theorem display_text_matches_artifact_witness :
    readFile helloRunFS
      ("whisperx_output" ++ "/" ++ "transcript_1700000000" ++ ".txt") =
      some "hello world\n" :=
  display_text_matches_artifact docHello false [] "whisperx_output"
    "transcript_1700000000" "hello world\n"
    ["whisperx_output/transcript_1700000000.json",
     "whisperx_output/transcript_1700000000.txt",
     "whisperx_output/transcript_1700000000.srt",
     "whisperx_output/transcript_1700000000.vtt"] helloRunFS (by decide)

/-- Claim C1 (amended): the end-to-end scenario writes the four
artifacts json/txt/srt/vtt in order under one prefix; the SRT artifact
holds the claimed cue; the VTT artifact starts with `WEBVTT` and holds
the cue `00:01.500 --> 00:03.750` (hours omitted:
`always_include_hours=False`), and the plain-text artifact holds
`hello world\n`, which is also the returned display text. -/
theorem exporter_end_to_end_hello :
    helloRun = .ok ("hello world\n",
      ["whisperx_output/transcript_1700000000.json",
       "whisperx_output/transcript_1700000000.txt",
       "whisperx_output/transcript_1700000000.srt",
       "whisperx_output/transcript_1700000000.vtt"], helloRunFS) ∧
    readFile helloRunFS "whisperx_output/transcript_1700000000.srt" =
      some "1\n00:00:01,500 --> 00:00:03,750\nhello world\n\n" ∧
    strContains "1\n00:00:01,500 --> 00:00:03,750\nhello world\n\n"
      "1\n00:00:01,500 --> 00:00:03,750\nhello world\n\n" ∧
    readFile helloRunFS "whisperx_output/transcript_1700000000.vtt" =
      some "WEBVTT\n\n00:01.500 --> 00:03.750\nhello world\n\n" ∧
    strStartsWith "WEBVTT\n\n00:01.500 --> 00:03.750\nhello world\n\n"
      "WEBVTT\n\n" ∧
    strContains "WEBVTT\n\n00:01.500 --> 00:03.750\nhello world\n\n"
      "00:01.500 --> 00:03.750\nhello world\n\n" ∧
    readFile helloRunFS "whisperx_output/transcript_1700000000.txt" =
      some "hello world\n" := by
  refine ⟨by decide, by decide, by decide, by decide, by decide, by decide,
    by decide⟩

/-- Counterexample to claim C1 as stated: the VTT artifact does not
contain the claimed cue `00:00:01.500 --> 00:00:03.750\nhello
world\n\n` — the code renders VTT timestamps with
`always_include_hours=False`, so the zero hour field is omitted. -/
theorem exporter_vtt_cue_counterexample :
    readFile helloRunFS "whisperx_output/transcript_1700000000.vtt" =
      some "WEBVTT\n\n00:01.500 --> 00:03.750\nhello world\n\n" ∧
    ¬ strContains "WEBVTT\n\n00:01.500 --> 00:03.750\nhello world\n\n"
      "00:00:01.500 --> 00:00:03.750\nhello world\n\n" := by
  exact ⟨by decide, by decide⟩

/-! ### Speaker prefixes (claim C10) -/

/-- Claim C10: in each of the three rendered formats a segment is
speaker-prefixed exactly when diarization is enabled and the segment
carries a speaker; a diarized segment without a speaker, or any segment
of a non-diarized run, renders bare. -/
theorem speaker_prefix_characterization (d : Bool) (seg : Segment) :
    (∀ spk, seg.speaker = some spk →
      txtSegLine true seg = "[" ++ spk ++ "]: " ++ pyStrip seg.text ++ "\n" ∧
      srtSegText true seg =
        "[" ++ spk ++ "]: " ++ replArrowStr (pyStrip seg.text) ∧
      vttSegText true seg =
        "[" ++ spk ++ "]: " ++ replArrowStr (pyStrip seg.text)) ∧
    (seg.speaker = none →
      txtSegLine d seg = pyStrip seg.text ++ "\n" ∧
      srtSegText d seg = replArrowStr (pyStrip seg.text) ∧
      vttSegText d seg = replArrowStr (pyStrip seg.text)) ∧
    (txtSegLine false seg = pyStrip seg.text ++ "\n" ∧
      srtSegText false seg = replArrowStr (pyStrip seg.text) ∧
      vttSegText false seg = replArrowStr (pyStrip seg.text)) := by
  refine ⟨?_, ?_, ?_⟩
  · intro spk h
    exact ⟨by simp [txtSegLine, h], by simp [srtSegText, h],
      by simp [vttSegText, h]⟩
  · intro h
    cases d <;>
      exact ⟨by simp [txtSegLine, h], by simp [srtSegText, h],
        by simp [vttSegText, h]⟩
  · cases hsp : seg.speaker <;>
      exact ⟨by simp [txtSegLine, hsp], by simp [srtSegText, hsp],
        by simp [vttSegText, hsp]⟩

/-- Witness for `speaker_prefix_characterization` on a concrete
diarized segment. -/
theorem speaker_prefix_characterization_witness :
    txtSegLine true segSpeakerW =
      "[" ++ "SPEAKER_00" ++ "]: " ++ pyStrip segSpeakerW.text ++ "\n" ∧
    srtSegText true segSpeakerW =
      "[" ++ "SPEAKER_00" ++ "]: " ++ replArrowStr (pyStrip segSpeakerW.text) ∧
    vttSegText true segSpeakerW =
      "[" ++ "SPEAKER_00" ++ "]: " ++ replArrowStr (pyStrip segSpeakerW.text) :=
  (speaker_prefix_characterization true segSpeakerW).1 "SPEAKER_00" rfl

/-! ### The top-level error contract (claim C6) -/

/-- Claim C6: the top-level entry point never propagates an error; it
returns either `("Error: " + message, [])` on any failure, or the
transcript paired with a non-empty artifact list on success — the empty
artifact list is the failure signal. -/
theorem transcribe_audio_failure_signal {M AM AMe DM DS : Type}
    (env : Env M AM AMe DM DS) (mgr : MgrState M) (fs : FS) (cfg : Config)
    (now : ℚ) (audio : AudioFile) :
    (∃ e, (transcribe_audio env mgr fs cfg now audio).1 =
      ("Error: " ++ e, [])) ∨
    (∃ t files, (transcribe_audio env mgr fs cfg now audio).1 = (t, files) ∧
      files ≠ []) := by
  simp only [transcribe_audio]
  repeat' split
  all_goals
    first
      | exact Or.inl ⟨_, rfl⟩
      | (rename_i transcript files2 fsOut heq
         exact Or.inr ⟨transcript, files2, rfl, by
           rw [exportResults_ok_files heq]
           simp⟩)

/-! ### Speaker-bound parsing (claim C8) -/

/-- Claim C8 (amended): with diarization requested, a provided
non-numeric speaker bound makes the run fail with the `int()` parse
error, and no inference capability (transcription, alignment,
diarization) is ever invoked — the only capability that may have run is
the ASR model loader, which the source calls before parsing the
bounds.  No positivity check is performed on values that do parse (see
the counterexample). -/
theorem speaker_bound_error_before_inference {M AM AMe DM DS : Type}
    (env : Env M AM AMe DM DS) (mgr : MgrState M) (fs : FS) (cfg : Config)
    (now : ℚ) (audio : AudioFile) (hd : cfg.diarize = true)
    (hbad : (∃ s e, cfg.min_speakers = some s ∧ s ≠ "" ∧ pyInt s = .error e) ∨
      (∃ s e, cfg.max_speakers = some s ∧ s ≠ "" ∧ pyInt s = .error e)) :
    (∃ e, (transcribe_audio env mgr fs cfg now audio).1 =
      ("Error: " ++ e, [])) ∧
    (∀ cap, cap ∈ (transcribe_audio env mgr fs cfg now audio).2.2.2 →
      cap = Cap.load_model) := by
  simp only [transcribe_audio]
  split
  · refine ⟨⟨_, rfl⟩, ?_⟩
    intro cap hc
    exact List.eq_of_mem_singleton hc
  · split
    · refine ⟨⟨_, rfl⟩, ?_⟩
      intro cap hc
      split at hc
      · exact List.eq_of_mem_singleton hc
      · simp at hc
    · split
      · refine ⟨⟨_, rfl⟩, ?_⟩
        intro cap hc
        split at hc
        · exact List.eq_of_mem_singleton hc
        · simp at hc
      · exfalso
        rename_i minV heqMin scr2 maxV heqMax
        rcases hbad with ⟨s, e, hs, hne, herr⟩ | ⟨s, e, hs, hne, herr⟩
        · rw [hs] at heqMin
          simp only [parseSpeakerBound] at heqMin
          rw [if_pos hne, herr] at heqMin
          simp at heqMin
        · rw [hs] at heqMax
          simp only [parseSpeakerBound] at heqMax
          rw [if_pos hne, herr] at heqMax
          simp at heqMax

/-- Witness for `speaker_bound_error_before_inference`: diarization
with `max_speakers="abc"` fails before any inference runs. -/
theorem speaker_bound_error_before_inference_witness :
    (∃ e, (transcribe_audio envSample initialManager [] cfgBadBound qTimeA
      (AudioFile.plainPath "audio.wav")).1 = ("Error: " ++ e, [])) ∧
    (∀ cap, cap ∈ (transcribe_audio envSample initialManager [] cfgBadBound
      qTimeA (AudioFile.plainPath "audio.wav")).2.2.2 →
      cap = Cap.load_model) :=
  speaker_bound_error_before_inference envSample initialManager [] cfgBadBound
    qTimeA (AudioFile.plainPath "audio.wav") rfl
    (Or.inr ⟨"abc", "invalid literal for int() with base 10: abc", rfl,
      by decide, by decide⟩)

/-- Counterexample to claim C8 as stated ("parsed as a positive
integer"): with diarization enabled, the provided bound `"-2"` parses
to the non-positive integer -2, no configuration error is raised, and
the diarization capability is invoked with `max_speakers = -2`; the run
completes normally. -/
theorem speaker_bound_sign_unchecked :
    Cap.runDiarize none (some (-2)) ∈ negBoundRun.2.2.2 ∧
    negBoundRun.1 = ("hello world\n",
      ["whisperx_output/transcript_1700000000.json",
       "whisperx_output/transcript_1700000000.txt",
       "whisperx_output/transcript_1700000000.srt",
       "whisperx_output/transcript_1700000000.vtt"]) := by
  exact ⟨by decide, by decide⟩
